import Mathlib

/-!
# Verification of the zepto editing engine (src/main.rs)

Shallow embedding of the in-memory editing engine of the zepto terminal
editor: text buffer, cursor and selection arithmetic, viewport scrolling,
word navigation and the modal key dispatch, translated from `src/main.rs`.

Lines are `List Char`; the buffer is a `List (List Char)`.  Rust `usize`
arithmetic is modelled with `Nat` (Rust `saturating_sub` is `Nat.sub`,
which already truncates at zero).  The buffer-content fingerprint
(`DefaultHasher` in the source) is an arbitrary function
`hashB : List (List Char) → Nat` passed as a parameter.  Fallible file
I/O is modelled by passing the outcome of the disk operation as an
argument (`readResult : Option (List Char)` for `fs::read_to_string`,
`writeOk : Bool` for `fs::write`).  Places where the Rust code would
panic on an out-of-range index are totalised with `List.getD`/`take`/
`drop`; theorems that depend on those accesses carry the corresponding
in-range hypotheses.
-/

namespace Zepto

/-- `ApplicationMode` from src/main.rs lines 25-30. -/
inductive ApplicationMode where
  | Editing
  | Help
  | PromptSave
deriving DecidableEq

/-- `InputMode` from src/main.rs lines 32-36. -/
inductive InputMode where
  | Normal
  | Insert
deriving DecidableEq

/-- The crossterm key codes the dispatcher inspects (src/main.rs). -/
inductive KeyCode where
  | Char (c : Char)
  | Esc
  | Enter
  | Backspace
  | Delete
  | Left
  | Right
  | Up
  | Down
  | Home
  | End
  | PageUp
  | PageDown
deriving DecidableEq

/-- The two key modifiers the dispatcher inspects (crossterm
`KeyModifiers::CONTROL` and `KeyModifiers::SHIFT`). -/
structure KeyMods where
  ctrl : Bool
  shift : Bool
deriving DecidableEq

/-- `KeyModifiers::is_empty()` restricted to the two inspected bits. -/
def KeyMods.isEmpty (m : KeyMods) : Bool := !m.ctrl && !m.shift

/-- The ratatui `Rect` handed to the key handlers (only `width` and
`height` are read by the engine; both are `u16` in the source). -/
structure Rect where
  width : Nat
  height : Nat
deriving DecidableEq

/-- The `Editor` struct from src/main.rs lines 38-56 (engine fields only;
the rendering backend and the parsed color configuration are external
collaborators and never read by the functions embedded here). -/
structure EditorState where
  buffer : List (List Char)
  cursor_x : Nat
  cursor_y : Nat
  scroll_x : Nat
  scroll_y : Nat
  original_buffer_hash : Nat
  filename : Option String
  application_mode : ApplicationMode
  input_mode : InputMode
  vim_enabled : Bool
  status_message : String
  prompt_message : String
  clipboard : List Char
  selection_start : Option (Nat × Nat)
  selection_end : Option (Nat × Nat)
deriving DecidableEq

/-- The line of the buffer at row `y` (`self.buffer[y]`; Rust panics when
`y` is out of range, here it defaults to the empty line). -/
def EditorState.line (st : EditorState) (y : Nat) : List Char :=
  st.buffer.getD y []

/-- `is_dirty` (src/main.rs lines 97-99), with the content fingerprint
`hashB` passed explicitly. -/
def is_dirty (hashB : List (List Char) → Nat) (st : EditorState) : Prop :=
  hashB st.buffer ≠ st.original_buffer_hash

instance (hashB : List (List Char) → Nat) (st : EditorState) :
    Decidable (is_dirty hashB st) := by
  unfold is_dirty; infer_instance

/-- Rust `str::lines()` on a character list: split at `"\n"` or `"\r\n"`,
dropping the line terminator; the final line ending is optional (a
trailing terminator does not produce a trailing empty line).  Used by
`open_file` (src/main.rs line 103). -/
def rustLines : List Char → List (List Char)
  | [] => []
  | '\r' :: '\n' :: rest => [] :: rustLines rest
  | '\n' :: rest => [] :: rustLines rest
  | c :: rest =>
    match rustLines rest with
    | [] => [[c]]
    | l :: ls => (c :: l) :: ls

/-- The buffer produced by `open_file` from file content (src/main.rs
lines 103-106): `content.lines()`, then one empty line if that is empty. -/
def loadBuffer (content : List Char) : List (List Char) :=
  let b := rustLines content
  if b = [] then [[]] else b

/-- `self.buffer.join("\n")` from `save_file` (src/main.rs line 122). -/
def serializeBuffer : List (List Char) → List Char
  | [] => []
  | [l] => l
  | l :: ls => l ++ '\n' :: serializeBuffer ls

/-- `clear_selection` (src/main.rs lines 133-136). -/
def clear_selection (st : EditorState) : EditorState :=
  { st with selection_start := none, selection_end := none }

/-- `get_normalized_selection` (src/main.rs lines 138-149). -/
def get_normalized_selection (st : EditorState) :
    Option ((Nat × Nat) × (Nat × Nat)) :=
  match st.selection_start, st.selection_end with
  | some s, some e =>
    if s.1 < e.1 ∨ (s.1 = e.1 ∧ s.2 ≤ e.2) then some (s, e) else some (e, s)
  | _, _ => none

/-- `update_selection_on_move` (src/main.rs lines 203-212).  Note that the
movement primitives call this after the cursor has already moved. -/
def update_selection_on_move (shift_pressed : Bool) (st : EditorState) :
    EditorState :=
  if shift_pressed then
    let st := if st.selection_start = none then
        { st with selection_start := some (st.cursor_y, st.cursor_x) }
      else st
    { st with selection_end := some (st.cursor_y, st.cursor_x) }
  else clear_selection st

/-- The common shape of the two scroll-window adjustments in
`ensure_cursor_in_view` (src/main.rs lines 181-191): scroll minimally so
that `scroll ≤ cursor < scroll + vis`. -/
def adjustScroll (vis cursor scroll : Nat) : Nat :=
  if cursor < scroll then cursor
  else if cursor ≥ scroll + vis then cursor - vis + 1
  else scroll

/-- The line-number gutter width used by `ensure_cursor_in_view`
(src/main.rs lines 172-176); `gutter_width + 1` is `u16` addition in the
source, hence the wrap at `2^16`. -/
def gutterTotal (line_numbers_enabled : Bool) (gutter_width : Nat) : Nat :=
  if line_numbers_enabled then (gutter_width + 1) % 65536 else 0

/-- `ensure_cursor_in_view` (src/main.rs lines 171-201).  `Nat`
subtraction models `saturating_sub`; the final statement of the source
(`self.cursor_x = self.cursor_x.min(self.buffer[self.cursor_y].len())`)
indexes `buffer[cursor_y]` unconditionally and panics when `cursor_y` is
out of range, totalised here through `EditorState.line`. -/
def ensure_cursor_in_view (rect : Rect) (line_numbers_enabled : Bool)
    (gutter_width : Nat) (st : EditorState) : EditorState :=
  let effective_width := rect.width - 2 - gutterTotal line_numbers_enabled gutter_width
  let visible_height := rect.height - 2
  let sy := adjustScroll visible_height st.cursor_y st.scroll_y
  let sx := adjustScroll effective_width st.cursor_x st.scroll_x
  let sy := min sy (st.buffer.length - 1)
  let sx := if st.cursor_y < st.buffer.length then
      min sx ((st.line st.cursor_y).length - effective_width)
    else 0
  { st with scroll_y := sy, scroll_x := sx,
             cursor_x := min st.cursor_x (st.line st.cursor_y).length }

/-- `move_cursor_left` (src/main.rs lines 214-226). -/
def move_cursor_left (rect : Rect) (lnE : Bool) (gw : Nat)
    (shift_pressed : Bool) (st : EditorState) : EditorState :=
  let st :=
    if st.cursor_x > 0 then { st with cursor_x := st.cursor_x - 1 }
    else if st.cursor_y > 0 then
      { st with cursor_y := st.cursor_y - 1,
                 cursor_x := (st.line (st.cursor_y - 1)).length }
    else st
  ensure_cursor_in_view rect lnE gw (update_selection_on_move shift_pressed st)

/-- `move_cursor_right` (src/main.rs lines 228-240). -/
def move_cursor_right (rect : Rect) (lnE : Bool) (gw : Nat)
    (shift_pressed : Bool) (st : EditorState) : EditorState :=
  let st :=
    if st.cursor_x < (st.line st.cursor_y).length then
      { st with cursor_x := st.cursor_x + 1 }
    else if st.cursor_y < st.buffer.length - 1 then
      { st with cursor_y := st.cursor_y + 1, cursor_x := 0 }
    else st
  ensure_cursor_in_view rect lnE gw (update_selection_on_move shift_pressed st)

/-- `move_cursor_up` (src/main.rs lines 242-252). -/
def move_cursor_up (rect : Rect) (lnE : Bool) (gw : Nat)
    (shift_pressed : Bool) (st : EditorState) : EditorState :=
  let st :=
    if st.cursor_y > 0 then
      { st with cursor_y := st.cursor_y - 1,
                 cursor_x := min st.cursor_x (st.line (st.cursor_y - 1)).length }
    else st
  ensure_cursor_in_view rect lnE gw (update_selection_on_move shift_pressed st)

/-- `move_cursor_down` (src/main.rs lines 254-264). -/
def move_cursor_down (rect : Rect) (lnE : Bool) (gw : Nat)
    (shift_pressed : Bool) (st : EditorState) : EditorState :=
  let st :=
    if st.cursor_y < st.buffer.length - 1 then
      { st with cursor_y := st.cursor_y + 1,
                 cursor_x := min st.cursor_x (st.line (st.cursor_y + 1)).length }
    else st
  ensure_cursor_in_view rect lnE gw (update_selection_on_move shift_pressed st)

/-- The character classifier of the word navigator
(`char::is_alphanumeric` in the source).  Rust's classifier is
Unicode-aware; `Char.isAlphanum` agrees with it on ASCII, and every
concrete scenario below uses ASCII content only.  The word-navigation
lemmas are proved for an arbitrary classifier `p`. -/
def rustIsAlphanumeric (c : Char) : Bool := c.isAlphanum

/-- One `while self.cursor_x < chars.len() && p(chars[self.cursor_x])`
loop from the word-right navigation (src/main.rs lines 309-315), with the
remaining-iteration count as structural fuel so that the kernel can
evaluate it. -/
def skipRunAux (p : Char → Bool) (chars : List Char) :
    Nat → Nat → Nat
  | 0, x => x
  | fuel + 1, x =>
    if x < chars.length ∧ p (chars.getD x 'a') = true then
      skipRunAux p chars fuel (x + 1)
    else x

/-- Forward skip over the run of characters satisfying `p` starting at
index `x` (the two forward loops of `move_cursor_word_right`). -/
def skipRun (p : Char → Bool) (chars : List Char) (x : Nat) : Nat :=
  skipRunAux p chars (chars.length - x) x

/-- One `while self.cursor_x > 0 && p(chars[self.cursor_x - 1])` loop from
the word-left navigation (src/main.rs lines 281-287). -/
def skipBackRun (p : Char → Bool) (chars : List Char) : Nat → Nat
  | 0 => 0
  | x + 1 => if p (chars.getD x 'a') then skipBackRun p chars x else x + 1

/-- The in-line part of `move_cursor_word_right` (src/main.rs lines
306-324): skip the alphanumeric run, then the non-alphanumeric run; the
guarded secondary pass re-runs both skips when the cursor failed to
advance past an alphanumeric character at the original position. -/
def moveWordRightLine (p : Char → Bool) (chars : List Char) (x : Nat) : Nat :=
  let x1 := skipRun p chars x
  let x2 := skipRun (fun c => !(p c)) chars x1
  if x = x2 ∧ x2 < chars.length ∧ p (chars.getD x 'a') = true then
    let x3 := skipRun p chars x2
    skipRun (fun c => !(p c)) chars x3
  else x2

/-- The Boolean guard of the secondary skip in `move_cursor_word_right`
(src/main.rs line 317), evaluated at the state after the two skip loops. -/
def secondarySkipFires (p : Char → Bool) (chars : List Char) (x : Nat) : Bool :=
  let x1 := skipRun p chars x
  let x2 := skipRun (fun c => !(p c)) chars x1
  (x == x2) && decide (x2 < chars.length) && p (chars.getD x 'a')

/-- The tail of `move_cursor_word_right` after the optional end-of-line
crossing: run the skips on the current line, then update the selection and
normalize the viewport. -/
def moveWordRightGo (rect : Rect) (lnE : Bool) (gw : Nat)
    (shift_pressed : Bool) (st : EditorState) : EditorState :=
  let st := { st with
    cursor_x := moveWordRightLine rustIsAlphanumeric (st.line st.cursor_y) st.cursor_x }
  ensure_cursor_in_view rect lnE gw (update_selection_on_move shift_pressed st)

/-- `move_cursor_word_right` (src/main.rs lines 293-328).  At end of line
it first crosses to column 0 of the next line; at the very end of the
buffer it returns without touching selection or viewport. -/
def move_cursor_word_right (rect : Rect) (lnE : Bool) (gw : Nat)
    (shift_pressed : Bool) (st : EditorState) : EditorState :=
  if st.cursor_x = (st.line st.cursor_y).length then
    if st.cursor_y < st.buffer.length - 1 then
      moveWordRightGo rect lnE gw shift_pressed
        { st with cursor_y := st.cursor_y + 1, cursor_x := 0 }
    else st
  else moveWordRightGo rect lnE gw shift_pressed st

/-- The tail of `move_cursor_word_left` after the optional start-of-line
crossing (src/main.rs lines 279-290). -/
def moveWordLeftGo (rect : Rect) (lnE : Bool) (gw : Nat)
    (shift_pressed : Bool) (st : EditorState) : EditorState :=
  let chars := st.line st.cursor_y
  let x := skipBackRun (fun c => !(rustIsAlphanumeric c)) chars st.cursor_x
  let x := skipBackRun rustIsAlphanumeric chars x
  let st := { st with cursor_x := x }
  ensure_cursor_in_view rect lnE gw (update_selection_on_move shift_pressed st)

/-- `move_cursor_word_left` (src/main.rs lines 266-291). -/
def move_cursor_word_left (rect : Rect) (lnE : Bool) (gw : Nat)
    (shift_pressed : Bool) (st : EditorState) : EditorState :=
  if st.cursor_x = 0 then
    if st.cursor_y > 0 then
      moveWordLeftGo rect lnE gw shift_pressed
        { st with cursor_y := st.cursor_y - 1,
                  cursor_x := (st.line (st.cursor_y - 1)).length }
    else st
  else moveWordLeftGo rect lnE gw shift_pressed st

/-- `get_selected_text` (src/main.rs lines 330-346).  Same-row selections
yield the column slice; multi-row selections yield the start row's suffix,
the interior rows and the end row's prefix joined by line breaks.  The
Rust string slicing panics on out-of-range columns; `take`/`drop`
totalise it. -/
def get_selected_text (st : EditorState) : Option (List Char) :=
  (get_normalized_selection st).map fun ((start_row, start_col), (end_row, end_col)) =>
    if start_row = end_row then
      ((st.line start_row).take end_col).drop start_col
    else
      ((st.line start_row).drop start_col) ++
        (((List.range (end_row - (start_row + 1))).map
            (fun i => '\n' :: st.line (start_row + 1 + i))).flatten) ++
        '\n' :: (st.line end_row).take end_col

/-- `delete_selected_text` (src/main.rs lines 151-169).  Same-row: remove
the column span; multi-row: replace the affected rows with the start row's
prefix concatenated with the end row's suffix (`Vec::splice`). -/
def delete_selected_text (rect : Rect) (lnE : Bool) (gw : Nat)
    (st : EditorState) : EditorState :=
  match get_normalized_selection st with
  | none => st
  | some ((start_row, start_col), (end_row, end_col)) =>
    let buffer :=
      if start_row = end_row then
        st.buffer.set start_row
          ((st.line start_row).take start_col ++ (st.line start_row).drop end_col)
      else
        st.buffer.take start_row ++
          ((st.line start_row).take start_col ++ (st.line end_row).drop end_col) ::
          st.buffer.drop (end_row + 1)
    let st := { st with buffer := buffer, cursor_y := start_row,
                        cursor_x := start_col }
    ensure_cursor_in_view rect lnE gw (clear_selection st)

/-- `copy_selection` (src/main.rs lines 348-355). -/
def copy_selection (st : EditorState) : EditorState :=
  match get_selected_text st with
  | some text =>
    { st with clipboard := text,
              status_message := "Copied " ++ toString text.length ++ " characters." }
  | none => { st with status_message := "No selection to copy." }

/-- `cut_selection` (src/main.rs lines 357-365). -/
def cut_selection (rect : Rect) (lnE : Bool) (gw : Nat)
    (st : EditorState) : EditorState :=
  match get_selected_text st with
  | some text =>
    let st := { st with clipboard := text }
    let st := delete_selected_text rect lnE gw st
    { st with status_message := "Cut " ++ toString st.clipboard.length ++ " characters." }
  | none => { st with status_message := "No selection to cut." }

/-- Rust `str::split('\n')`: every segment, including a trailing empty
one; never returns the empty list.  Used by `insert_text_at_cursor`
(src/main.rs line 372). -/
def splitNl : List Char → List (List Char)
  | [] => [[]]
  | '\n' :: rest => [] :: splitNl rest
  | c :: rest =>
    match splitNl rest with
    | [] => [[c]]
    | l :: ls => (c :: l) :: ls

/-- The insertion loop of `insert_text_at_cursor` (src/main.rs lines
381-388): insert each remaining segment below the cursor row, the last
one with the original line's suffix appended, advancing the row each
time. -/
def insertPartsLoop (remaining : List Char) :
    List (List Char) → List (List Char) → Nat → List (List Char) × Nat
  | [last], buffer, y => (buffer.insertIdx (y + 1) (last ++ remaining), y + 1)
  | part :: rest, buffer, y =>
    insertPartsLoop remaining rest (buffer.insertIdx (y + 1) part) (y + 1)
  | [], buffer, y => (buffer, y)

/-- `insert_text_at_cursor` (src/main.rs lines 367-399). -/
def insert_text_at_cursor (rect : Rect) (lnE : Bool) (gw : Nat)
    (text : List Char) (st : EditorState) : EditorState :=
  let st := if st.selection_start.isSome then delete_selected_text rect lnE gw st
    else st
  let lines := splitNl text
  let remaining_line := (st.line st.cursor_y).drop st.cursor_x
  let firstPart := lines.getD 0 []
  let st := { st with
    buffer := st.buffer.set st.cursor_y
      ((st.line st.cursor_y).take st.cursor_x ++ firstPart),
    cursor_x := st.cursor_x + firstPart.length }
  let st :=
    if lines.length > 1 then
      let (buffer, y) := insertPartsLoop remaining_line (lines.drop 1) st.buffer st.cursor_y
      { st with buffer := buffer, cursor_y := y,
                cursor_x := (lines.getLastD []).length }
    else
      { st with buffer := st.buffer.set st.cursor_y
                    ((st.line st.cursor_y) ++ remaining_line) }
  ensure_cursor_in_view rect lnE gw st

/-- `paste` (src/main.rs lines 401-409). -/
def paste (rect : Rect) (lnE : Bool) (gw : Nat) (st : EditorState) :
    EditorState :=
  if st.clipboard ≠ [] then
    let n := st.clipboard.length
    let st := insert_text_at_cursor rect lnE gw st.clipboard st
    { st with status_message := "Pasted " ++ toString n ++ " characters." }
  else { st with status_message := "Clipboard is empty." }

/-- `insert_char` (src/main.rs lines 411-418). -/
def insert_char (rect : Rect) (lnE : Bool) (gw : Nat) (c : Char)
    (st : EditorState) : EditorState :=
  let st := clear_selection st
  let st := { st with
    buffer := st.buffer.set st.cursor_y
      ((st.line st.cursor_y).take st.cursor_x ++ c :: (st.line st.cursor_y).drop st.cursor_x),
    cursor_x := st.cursor_x + 1 }
  ensure_cursor_in_view rect lnE gw st

/-- `insert_newline` (src/main.rs lines 420-429): split the cursor line at
the cursor column, the tail becoming a new line below. -/
def insert_newline (rect : Rect) (lnE : Bool) (gw : Nat)
    (st : EditorState) : EditorState :=
  let st := clear_selection st
  let rest_of_line := (st.line st.cursor_y).drop st.cursor_x
  let st := { st with
    buffer := (st.buffer.set st.cursor_y ((st.line st.cursor_y).take st.cursor_x)).insertIdx
      (st.cursor_y + 1) rest_of_line,
    cursor_y := st.cursor_y + 1,
    cursor_x := 0 }
  ensure_cursor_in_view rect lnE gw st

/-- `delete_char_backward` (src/main.rs lines 431-449). -/
def delete_char_backward (rect : Rect) (lnE : Bool) (gw : Nat)
    (st : EditorState) : EditorState :=
  if st.selection_start.isSome then delete_selected_text rect lnE gw st
  else
    let st :=
      if st.cursor_x > 0 then
        { st with cursor_x := st.cursor_x - 1,
                  buffer := st.buffer.set st.cursor_y
                              ((st.line st.cursor_y).take (st.cursor_x - 1) ++
                                (st.line st.cursor_y).drop st.cursor_x) }
      else if st.cursor_y > 0 then
        let current_line := st.line st.cursor_y
        let buffer := st.buffer.eraseIdx st.cursor_y
        { st with buffer := buffer.set (st.cursor_y - 1)
                      (buffer.getD (st.cursor_y - 1) [] ++ current_line),
                  cursor_y := st.cursor_y - 1,
                  cursor_x := (buffer.getD (st.cursor_y - 1) []).length }
      else st
    ensure_cursor_in_view rect lnE gw st

/-- `delete_char_forward` (src/main.rs lines 451-466). -/
def delete_char_forward (rect : Rect) (lnE : Bool) (gw : Nat)
    (st : EditorState) : EditorState :=
  if st.selection_start.isSome then delete_selected_text rect lnE gw st
  else
    let st :=
      if st.cursor_x < (st.line st.cursor_y).length then
        { st with buffer := st.buffer.set st.cursor_y
                      ((st.line st.cursor_y).take st.cursor_x ++
                        (st.line st.cursor_y).drop (st.cursor_x + 1)) }
      else if st.cursor_y < st.buffer.length - 1 then
        { st with buffer := (st.buffer.set st.cursor_y
                      (st.line st.cursor_y ++ st.line (st.cursor_y + 1))).eraseIdx
                      (st.cursor_y + 1) }
      else st
    ensure_cursor_in_view rect lnE gw st

/-- `save_file` (src/main.rs lines 120-131).  `writeOk` is the outcome of
`fs::write`; the returned `Bool` is `Ok`/`Err` of the `io::Result`.  On a
write error the `?` operator returns before the fingerprint or the status
message is touched. -/
def save_file (hashB : List (List Char) → Nat) (writeOk : Bool)
    (st : EditorState) : EditorState × Bool :=
  match st.filename with
  | some filename =>
    if writeOk then
      ({ st with original_buffer_hash := hashB st.buffer,
                 status_message := "Saved " ++ toString st.buffer.length ++
                   " lines to " ++ filename }, true)
    else (st, false)
  | none =>
    ({ st with status_message := "No filename. Cannot save. (Implement :w <filename>)" },
      false)

/-- `open_file` (src/main.rs lines 101-118).  `readResult` is the outcome
of `fs::read_to_string`; on an error the `?` operator returns before any
field is touched. -/
def open_file (hashB : List (List Char) → Nat) (path : String)
    (readResult : Option (List Char)) (st : EditorState) : EditorState × Bool :=
  match readResult with
  | none => (st, false)
  | some content =>
    let st := { st with buffer := loadBuffer content }
    let st := { st with
      filename := some path,
      original_buffer_hash := hashB st.buffer }
    let st := if !st.vim_enabled then
        { st with status_message := "Opened: " ++ path }
      else st
    (clear_selection { st with cursor_x := 0, cursor_y := 0,
                               scroll_x := 0, scroll_y := 0 }, true)

/-- `handle_key_insert_mode` (src/main.rs lines 468-569).  The returned
`Bool` mirrors the Rust return value (always `false` in this handler). -/
def handle_key_insert_mode (rect : Rect) (lnE : Bool) (gw : Nat)
    (key : KeyCode) (mods : KeyMods) (st : EditorState) : EditorState × Bool :=
  let shift_pressed := mods.shift
  let editor_visible_height := rect.height - 2
  match key with
  | .Esc =>
    (if st.vim_enabled then
      let st := { st with input_mode := .Normal, status_message := "-- NORMAL --" }
      let st := clear_selection st
      { st with cursor_x := min (st.cursor_x - 1) ((st.line st.cursor_y).length - 1) }
    else st, false)
  | .Char c =>
    (if mods.isEmpty || mods.shift then insert_char rect lnE gw c st else st, false)
  | .Enter => (insert_newline rect lnE gw st, false)
  | .Backspace => (delete_char_backward rect lnE gw st, false)
  | .Delete => (delete_char_forward rect lnE gw st, false)
  | .Left =>
    (if mods.ctrl then move_cursor_word_left rect lnE gw shift_pressed st
     else move_cursor_left rect lnE gw shift_pressed st, false)
  | .Right =>
    (if mods.ctrl then move_cursor_word_right rect lnE gw shift_pressed st
     else move_cursor_right rect lnE gw shift_pressed st, false)
  | .Up => (move_cursor_up rect lnE gw shift_pressed st, false)
  | .Down => (move_cursor_down rect lnE gw shift_pressed st, false)
  | .Home =>
    if mods.ctrl then
      let st := { st with cursor_y := 0, cursor_x := 0, scroll_y := 0, scroll_x := 0 }
      (update_selection_on_move shift_pressed st, false)
    else
      let st := { st with cursor_x := 0, scroll_x := 0 }
      let st := update_selection_on_move shift_pressed st
      (ensure_cursor_in_view rect lnE gw st, false)
  | .End =>
    if mods.ctrl then
      let st := { st with cursor_y := st.buffer.length - 1 }
      let st := if st.cursor_y < st.buffer.length then
          { st with cursor_x := (st.line st.cursor_y).length }
        else { st with cursor_x := 0 }
      let st := update_selection_on_move shift_pressed st
      (ensure_cursor_in_view rect lnE gw st, false)
    else
      let st := if st.cursor_y < st.buffer.length then
          { st with cursor_x := (st.line st.cursor_y).length }
        else { st with cursor_x := 0 }
      let st := update_selection_on_move shift_pressed st
      (ensure_cursor_in_view rect lnE gw st, false)
  | .PageUp =>
    let st := { st with scroll_y := st.scroll_y - editor_visible_height }
    let st := { st with cursor_y := max (st.cursor_y - editor_visible_height) st.scroll_y }
    let st := { st with cursor_x := min st.cursor_x (st.line st.cursor_y).length }
    let st := update_selection_on_move shift_pressed st
    (ensure_cursor_in_view rect lnE gw st, false)
  | .PageDown =>
    let st := { st with scroll_y := min (st.scroll_y + editor_visible_height)
                          (st.buffer.length - 1) }
    let st := { st with cursor_y := min (st.cursor_y + editor_visible_height)
                          (st.buffer.length - 1) }
    let st := { st with cursor_x := min st.cursor_x (st.line st.cursor_y).length }
    let st := update_selection_on_move shift_pressed st
    (ensure_cursor_in_view rect lnE gw st, false)

/-- `handle_key_normal_mode` (src/main.rs lines 571-636). -/
def handle_key_normal_mode (rect : Rect) (lnE : Bool) (gw : Nat)
    (key : KeyCode) (mods : KeyMods) (st : EditorState) : EditorState × Bool :=
  let shift_pressed := mods.shift
  let st := if !shift_pressed && st.selection_start.isSome then clear_selection st
    else st
  match key with
  | .Char c =>
    if c = 'i' then
      ({ st with input_mode := .Insert, status_message := "-- INSERT --" }, false)
    else if c = 'a' then
      ({ st with cursor_x := st.cursor_x + 1, input_mode := .Insert,
                 status_message := "-- INSERT --" }, false)
    else if c = 'o' then
      let st := { st with cursor_y := st.cursor_y + 1, cursor_x := 0 }
      let st := insert_newline rect lnE gw st
      ({ st with input_mode := .Insert, status_message := "-- INSERT --" }, false)
    else if c = 'O' then
      let st := insert_newline rect lnE gw st
      ({ st with cursor_y := st.cursor_y - 1, cursor_x := 0,
                 input_mode := .Insert, status_message := "-- INSERT --" }, false)
    else if c = 'h' then (move_cursor_left rect lnE gw shift_pressed st, false)
    else if c = 'j' then (move_cursor_down rect lnE gw shift_pressed st, false)
    else if c = 'k' then (move_cursor_up rect lnE gw shift_pressed st, false)
    else if c = 'l' then (move_cursor_right rect lnE gw shift_pressed st, false)
    else if c = 'b' then (move_cursor_word_left rect lnE gw shift_pressed st, false)
    else if c = 'w' then (move_cursor_word_right rect lnE gw shift_pressed st, false)
    else if c = '0' then
      (ensure_cursor_in_view rect lnE gw { st with cursor_x := 0 }, false)
    else if c = '$' then
      let st := if st.cursor_y < st.buffer.length then
          { st with cursor_x := (st.line st.cursor_y).length }
        else { st with cursor_x := 0 }
      (ensure_cursor_in_view rect lnE gw st, false)
    else if c = 'x' then (delete_char_forward rect lnE gw st, false)
    else if c = 'c' ∧ mods.ctrl then (copy_selection st, false)
    else if c = 'u' ∧ mods.ctrl then (cut_selection rect lnE gw st, false)
    else if c = 'v' ∧ mods.ctrl then (paste rect lnE gw st, false)
    else (st, false)
  | .Left => (move_cursor_left rect lnE gw shift_pressed st, false)
  | .Down => (move_cursor_down rect lnE gw shift_pressed st, false)
  | .Up => (move_cursor_up rect lnE gw shift_pressed st, false)
  | .Right => (move_cursor_right rect lnE gw shift_pressed st, false)
  | .Esc =>
    let st := clear_selection st
    let st := if st.cursor_x > 0 ∧ st.cursor_x = (st.line st.cursor_y).length ∧
        (st.line st.cursor_y).length > 0 then
        { st with cursor_x := st.cursor_x - 1 }
      else st
    (st, false)
  | _ => (st, false)

/-- `handle_key_help_mode` (src/main.rs lines 699-715). -/
def handle_key_help_mode (key : KeyCode) (st : EditorState) :
    EditorState × Bool :=
  match key with
  | .Esc | .Char 'h' | .Enter =>
    let st := { st with application_mode := .Editing }
    let st := if st.vim_enabled then
        { st with status_message := match st.input_mode with
            | .Normal => "-- NORMAL --"
            | .Insert => "-- INSERT --" }
      else { st with status_message := "Ctrl+X Exit | Ctrl+W Save | Ctrl+H Help" }
    (st, false)
  | _ => (st, false)

/-- `handle_key_prompt_save_mode` (src/main.rs lines 717-745). -/
def handle_key_prompt_save_mode (hashB : List (List Char) → Nat)
    (writeOk : Bool) (key : KeyCode) (st : EditorState) : EditorState × Bool :=
  match key with
  | .Char 'y' | .Char 'Y' =>
    let (st, ok) := save_file hashB writeOk st
    if ok then (st, true)
    else ({ st with status_message := "Error saving: write failed",
                    application_mode := .Editing }, false)
  | .Char 'n' | .Char 'N' => (st, true)
  | .Esc =>
    let st := { st with application_mode := .Editing }
    let st := if st.vim_enabled then
        { st with status_message := match st.input_mode with
            | .Normal => "-- NORMAL --"
            | .Insert => "-- INSERT --" }
      else { st with status_message := "Ctrl+X Exit | Ctrl+W Save | Ctrl+H Help" }
    (st, false)
  | _ => (st, false)

/-- `handle_key_input` (src/main.rs lines 638-697): the global
Ctrl+X/W/Q/H transitions followed by the mode-specific dispatch on the
same key event.  The returned `Bool` is `should_exit`. -/
def handle_key_input (hashB : List (List Char) → Nat) (writeOk : Bool)
    (rect : Rect) (lnE : Bool) (gw : Nat) (key : KeyCode) (mods : KeyMods)
    (st : EditorState) : EditorState × Bool :=
  let (st, should_exit) :=
    if key = .Char 'x' ∧ mods.ctrl then
      if st.application_mode = .Editing then
        if st.selection_start.isSome then (cut_selection rect lnE gw st, false)
        else if is_dirty hashB st then
          ({ st with application_mode := .PromptSave,
                     prompt_message := "Save modified buffer? (Y/N)" }, false)
        else (st, true)
      else (st, false)
    else if key = .Char 'w' ∧ mods.ctrl then
      if st.application_mode = .Editing then
        let (st, ok) := save_file hashB writeOk st
        (if ok then st else { st with status_message := "Error saving: write failed" },
          false)
      else (st, false)
    else if key = .Char 'q' ∧ mods.ctrl then
      if st.application_mode = .Editing then
        if is_dirty hashB st then
          ({ st with application_mode := .PromptSave,
                     prompt_message := "Quit without saving? (Y/N)" }, false)
        else (st, true)
      else (st, false)
    else if key = .Char 'h' ∧ mods.ctrl then
      (if st.application_mode = .Editing then
        let st := { st with application_mode := .Help }
        if st.vim_enabled then { st with status_message := "-- HELP --" } else st
      else st, false)
    else (st, false)
  if should_exit then (st, true)
  else
    match st.application_mode with
    | .Editing =>
      match st.input_mode with
      | .Insert => handle_key_insert_mode rect lnE gw key mods st
      | .Normal => handle_key_normal_mode rect lnE gw key mods st
    | .Help => handle_key_help_mode key st
    | .PromptSave => handle_key_prompt_save_mode hashB writeOk key st

/-! ## Helper lemmas: buffer load and serialize -/

theorem rustLines_ne_nil (t : List Char) (ht : t ≠ []) : rustLines t ≠ [] := by
  induction t using rustLines.induct with
  | case1 => exact absurd rfl ht
  | case2 rest ih => simp [rustLines]
  | case3 rest ih => simp [rustLines]
  | case4 c rest h1 h2 hr ih =>
    rw [rustLines.eq_def]
    split <;> simp_all
  | case5 c rest h1 h2 l ls hr ih =>
    rw [rustLines.eq_def]
    split <;> simp_all

theorem rustLines_newline_cons (rest : List Char) :
    rustLines ('\n' :: rest) = [] :: rustLines rest := rfl

theorem rustLines_cons_of_ne (c : Char) (rest : List Char) (hn : c ≠ '\n')
    (hr : c ≠ '\r') :
    rustLines (c :: rest) =
      match rustLines rest with
      | [] => [[c]]
      | l :: ls => (c :: l) :: ls := by
  rw [rustLines.eq_def]
  split <;> simp_all

theorem serializeBuffer_cons_of_ne_nil (a : List Char)
    (ls : List (List Char)) (h : ls ≠ []) :
    serializeBuffer (a :: ls) = a ++ '\n' :: serializeBuffer ls := by
  cases ls with
  | nil => exact absurd rfl h
  | cons b bs => rfl

theorem serializeBuffer_cons_head (c : Char) (l : List Char)
    (ls : List (List Char)) :
    serializeBuffer ((c :: l) :: ls) = c :: serializeBuffer (l :: ls) := by
  cases ls <;> rfl

/-- Serialization after `str::lines()` on carriage-return-free non-empty
text: the identity, except that a trailing newline is removed. -/
theorem serialize_rustLines (t : List Char) (hcr : '\r' ∉ t) (ht : t ≠ []) :
    serializeBuffer (rustLines t) =
      if t.getLast? = some '\n' then t.dropLast else t := by
  induction t with
  | nil => exact absurd rfl ht
  | cons c rest ih =>
    have hc_r : c ≠ '\r' := fun h => hcr (h ▸ List.mem_cons_self c rest)
    have hrest_r : '\r' ∉ rest := fun h => hcr (List.mem_cons_of_mem c h)
    by_cases hrest : rest = []
    · subst hrest
      by_cases hc : c = '\n'
      · subst hc
        simp [rustLines_newline_cons, rustLines, serializeBuffer]
      · rw [rustLines_cons_of_ne c [] hc hc_r]
        simp [rustLines, serializeBuffer, hc]
    · have hne := rustLines_ne_nil rest hrest
      obtain ⟨r, rs, rfl⟩ : ∃ r rs, rest = r :: rs := by
        cases rest with
        | nil => exact absurd rfl hrest
        | cons r rs => exact ⟨r, rs, rfl⟩
      by_cases hc : c = '\n'
      · subst hc
        rw [rustLines_newline_cons,
          serializeBuffer_cons_of_ne_nil _ _ hne, ih hrest_r hrest,
          List.getLast?_cons_cons, List.dropLast_cons₂]
        by_cases hl : (r :: rs).getLast? = some '\n' <;> simp [hl]
      · rw [rustLines_cons_of_ne c _ hc hc_r]
        have hser : serializeBuffer (match rustLines (r :: rs) with
            | [] => [[c]]
            | l :: ls => (c :: l) :: ls) =
            c :: serializeBuffer (rustLines (r :: rs)) := by
          cases hmatch : rustLines (r :: rs) with
          | nil => exact absurd hmatch hne
          | cons l ls => rw [serializeBuffer_cons_head]
        rw [hser, ih hrest_r hrest, List.getLast?_cons_cons, List.dropLast_cons₂]
        by_cases hl : (r :: rs).getLast? = some '\n' <;> simp [hl]

/-! ## Claim C1 -/

/-- C1, counterexample.  The claim fails on the code in both halves: the
carriage-return-free text `"a\r\nb"` has no trailing newline yet does not
round-trip (`str::lines()` also splits at `"\r\n"`), and loading `"a\n"`
does not keep the trailing empty line as an explicit last line of the
buffer (`str::lines()` treats the final newline as a terminator and drops
the empty segment). -/
theorem C1_load_serialize_counterexample :
    serializeBuffer (loadBuffer ['a', '\r', '\n', 'b']) ≠ ['a', '\r', '\n', 'b'] ∧
    (loadBuffer ['a', '\n']).getLast? ≠ some ([] : List Char) := by
  decide

/-- C1, amended: for carriage-return-free text, serializing the buffer
produced by loading the text yields the text unchanged when it does not
end in a newline, and yields the text with its trailing newline removed
when it does (the trailing empty line is dropped by load, not preserved). -/
theorem C1_load_serialize_amended (t : List Char) (hcr : '\r' ∉ t) :
    serializeBuffer (loadBuffer t) =
      if t.getLast? = some '\n' then t.dropLast else t := by
  by_cases ht : t = []
  · subst ht; simp [loadBuffer, rustLines, serializeBuffer]
  · have h := rustLines_ne_nil t ht
    simp only [loadBuffer, if_neg h]
    exact serialize_rustLines t hcr ht

/-- C1, witness: the amended round trip evaluated at the text `"a\n"`. -/
theorem C1_load_serialize_witness :
    '\r' ∉ (['a', '\n'] : List Char) ∧
    serializeBuffer (loadBuffer ['a', '\n']) = ['a'] := by
  refine ⟨by decide, ?_⟩
  rw [C1_load_serialize_amended ['a', '\n'] (by decide)]
  decide

/-! ## Helper lemmas: word navigation -/

/-- The skip loops of the word navigator advance the cursor past the run
of characters satisfying `p`. -/
theorem skipRunAux_eq (p : Char → Bool) (chars : List Char) :
    ∀ (fuel x : Nat), chars.length - x ≤ fuel →
    skipRunAux p chars fuel x = x + ((chars.drop x).takeWhile p).length := by
  intro fuel
  induction fuel with
  | zero =>
    intro x hx
    have hlen : chars.length ≤ x := by omega
    simp [skipRunAux, List.drop_eq_nil_of_le hlen]
  | succ fuel ih =>
    intro x hx
    rw [skipRunAux]
    by_cases h : x < chars.length ∧ p (chars.getD x 'a') = true
    · rw [if_pos h]
      rw [ih (x + 1) (by omega)]
      have hdrop : chars.drop x = chars[x] :: chars.drop (x + 1) :=
        (List.getElem_cons_drop chars x h.1).symm
      have hp : p chars[x] = true := by
        rw [← List.getD_eq_getElem chars 'a' h.1]; exact h.2
      rw [hdrop, List.takeWhile_cons, hp]
      simp [Nat.add_comm, Nat.add_assoc, Nat.add_left_comm]
    · rw [if_neg h]
      rcases Nat.lt_or_ge x chars.length with hlt | hge
      · have hp : p (chars.getD x 'a') = false := by
          rcases Bool.eq_false_or_eq_true (p (chars.getD x 'a')) with htr | hf
          · exact absurd ⟨hlt, htr⟩ h
          · exact hf
        have hdrop : chars.drop x = chars[x] :: chars.drop (x + 1) :=
          (List.getElem_cons_drop chars x hlt).symm
        have hp' : p chars[x] = false := by
          rw [← List.getD_eq_getElem chars 'a' hlt]; exact hp
        rw [hdrop, List.takeWhile_cons, hp']
        simp
      · simp [List.drop_eq_nil_of_le hge]

theorem skipRun_eq (p : Char → Bool) (chars : List Char) (x : Nat) :
    skipRun p chars x = x + ((chars.drop x).takeWhile p).length :=
  skipRunAux_eq p chars (chars.length - x) x (Nat.le_refl _)

/-- The guard of the secondary skip in `move_cursor_word_right` is
unsatisfiable: whenever the cursor is on a character, one of the two skip
loops advances it. -/
theorem secondary_guard_false (p : Char → Bool) (chars : List Char) (x : Nat) :
    ¬(x = skipRun (fun c => !(p c)) chars (skipRun p chars x) ∧
      skipRun (fun c => !(p c)) chars (skipRun p chars x) < chars.length) := by
  rintro ⟨h1, h2⟩
  rw [skipRun_eq, skipRun_eq] at h1 h2
  have ha0 : ((chars.drop x).takeWhile p).length = 0 := by omega
  rw [ha0, Nat.add_zero] at h1 h2
  have hb0 : ((chars.drop x).takeWhile (fun c => !(p c))).length = 0 := by omega
  have hx : x < chars.length := by omega
  have hdrop : chars.drop x = chars[x] :: chars.drop (x + 1) :=
    (List.getElem_cons_drop chars x hx).symm
  rw [hdrop, List.takeWhile_cons] at ha0 hb0
  by_cases hp : p chars[x] = true
  · rw [hp] at ha0; simp at ha0
  · have hp' : p chars[x] = false := by
      rcases Bool.eq_false_or_eq_true (p chars[x]) with h | h
      · exact absurd h hp
      · exact h
    rw [hp'] at hb0; simp at hb0

/-! ## Frame lemmas for the normalization pass and selection update -/

theorem ensure_frame (rect : Rect) (lnE : Bool) (gw : Nat) (st : EditorState) :
    (ensure_cursor_in_view rect lnE gw st).buffer = st.buffer ∧
    (ensure_cursor_in_view rect lnE gw st).cursor_y = st.cursor_y ∧
    (ensure_cursor_in_view rect lnE gw st).cursor_x =
      min st.cursor_x (st.line st.cursor_y).length ∧
    (ensure_cursor_in_view rect lnE gw st).selection_start = st.selection_start ∧
    (ensure_cursor_in_view rect lnE gw st).selection_end = st.selection_end ∧
    (ensure_cursor_in_view rect lnE gw st).input_mode = st.input_mode ∧
    (ensure_cursor_in_view rect lnE gw st).application_mode = st.application_mode ∧
    (ensure_cursor_in_view rect lnE gw st).status_message = st.status_message ∧
    (ensure_cursor_in_view rect lnE gw st).prompt_message = st.prompt_message ∧
    (ensure_cursor_in_view rect lnE gw st).clipboard = st.clipboard ∧
    (ensure_cursor_in_view rect lnE gw st).filename = st.filename ∧
    (ensure_cursor_in_view rect lnE gw st).original_buffer_hash = st.original_buffer_hash ∧
    (ensure_cursor_in_view rect lnE gw st).vim_enabled = st.vim_enabled :=
  ⟨rfl, rfl, rfl, rfl, rfl, rfl, rfl, rfl, rfl, rfl, rfl, rfl, rfl⟩

theorem update_selection_frame (s : Bool) (st : EditorState) :
    (update_selection_on_move s st).buffer = st.buffer ∧
    (update_selection_on_move s st).cursor_x = st.cursor_x ∧
    (update_selection_on_move s st).cursor_y = st.cursor_y ∧
    (update_selection_on_move s st).scroll_x = st.scroll_x ∧
    (update_selection_on_move s st).scroll_y = st.scroll_y := by
  simp only [update_selection_on_move, clear_selection]
  split_ifs <;> simp

theorem update_selection_shift_none (st : EditorState)
    (h : st.selection_start = none) :
    (update_selection_on_move true st).selection_start =
      some (st.cursor_y, st.cursor_x) ∧
    (update_selection_on_move true st).selection_end =
      some (st.cursor_y, st.cursor_x) := by
  simp [update_selection_on_move, h]

/-- A bare editor state around a given buffer and cursor, used for
concrete evaluations (modal editing on, Normal mode, no selection). -/
def testState (buf : List (List Char)) (cx cy : Nat) : EditorState :=
  { buffer := buf, cursor_x := cx, cursor_y := cy, scroll_x := 0, scroll_y := 0,
    original_buffer_hash := 0, filename := none, application_mode := .Editing,
    input_mode := .Normal, vim_enabled := true, status_message := "",
    prompt_message := "", clipboard := [], selection_start := none,
    selection_end := none }

/-- Definition following the spec's words (§4.4 word-right, in-line part):
skip forward over the current alphanumeric run, then over the following
non-alphanumeric run, landing at the start of the next alphanumeric run. -/
def wordRightSpec (p : Char → Bool) (chars : List Char) (x : Nat) : Nat :=
  let x1 := x + ((chars.drop x).takeWhile p).length
  x1 + ((chars.drop x1).takeWhile (fun c => !(p c))).length

theorem takeWhile_length_le (p : Char → Bool) (l : List Char) :
    (l.takeWhile p).length ≤ l.length := by
  induction l with
  | nil => simp
  | cons a t ih =>
    rw [List.takeWhile_cons]
    by_cases h : p a = true
    · simp [h]; omega
    · simp [h]

theorem wordRightSpec_le (p : Char → Bool) (chars : List Char) (x : Nat)
    (hx : x ≤ chars.length) : wordRightSpec p chars x ≤ chars.length := by
  simp only [wordRightSpec]
  have h1 := takeWhile_length_le p (chars.drop x)
  have h2 := takeWhile_length_le (fun c => !(p c))
    (chars.drop (x + ((chars.drop x).takeWhile p).length))
  rw [List.length_drop] at h1 h2
  omega

theorem moveWordRightLine_eq_spec (p : Char → Bool) (chars : List Char)
    (x : Nat) : moveWordRightLine p chars x = wordRightSpec p chars x := by
  have hg : ¬(x = skipRun (fun c => !(p c)) chars (skipRun p chars x) ∧
      skipRun (fun c => !(p c)) chars (skipRun p chars x) < chars.length ∧
      p (chars.getD x 'a') = true) := by
    rintro ⟨h1, h2, h3⟩
    exact secondary_guard_false p chars x ⟨h1, h2⟩
  simp only [moveWordRightLine, wordRightSpec]
  rw [if_neg hg, skipRun_eq, skipRun_eq]

theorem moveWordRightGo_cursor (rect : Rect) (lnE : Bool) (gw : Nat)
    (shift : Bool) (st : EditorState)
    (hle : st.cursor_x ≤ (st.line st.cursor_y).length) :
    (moveWordRightGo rect lnE gw shift st).cursor_y = st.cursor_y ∧
    (moveWordRightGo rect lnE gw shift st).cursor_x =
      wordRightSpec rustIsAlphanumeric (st.line st.cursor_y) st.cursor_x := by
  unfold moveWordRightGo
  set st1 : EditorState := { st with
    cursor_x := moveWordRightLine rustIsAlphanumeric (st.line st.cursor_y) st.cursor_x }
    with hst1
  obtain ⟨hub, hux, huy, -, -⟩ := update_selection_frame shift st1
  obtain ⟨heb, hey, hex, -⟩ := ensure_frame rect lnE gw (update_selection_on_move shift st1)
  have hline : (update_selection_on_move shift st1).line
      (update_selection_on_move shift st1).cursor_y = st.line st.cursor_y := by
    rw [EditorState.line, hub, huy]; rfl
  constructor
  · rw [hey, huy]
  · rw [hex, hux, hline, hst1]
    simp only
    rw [moveWordRightLine_eq_spec]
    exact Nat.min_eq_left (wordRightSpec_le _ _ _ hle)

/-! ## Claim C5 -/

/-- The guard of the word-right secondary skip never fires: whenever the
cursor is on a character, the first skip pass strictly advances it, and
otherwise the `cursor < line length` conjunct fails. -/
theorem secondarySkipFires_eq_false (p : Char → Bool) (chars : List Char)
    (x : Nat) : secondarySkipFires p chars x = false := by
  unfold secondarySkipFires
  by_cases hx : x = skipRun (fun c => !(p c)) chars (skipRun p chars x)
  · by_cases hl : skipRun (fun c => !(p c)) chars (skipRun p chars x) < chars.length
    · exact absurd ⟨hx, hl⟩ (secondary_guard_false p chars x)
    · simp [hl]
  · simp [hx]

/-- The situation asserted by the claim, as a single proposition: some
line content, cursor position and character classifier make the
word-right secondary-skip guard fire after the first skip pass. -/
def secondarySkipReachable : Prop :=
  ∃ (p : Char → Bool) (chars : List Char) (x : Nat),
    secondarySkipFires p chars x = true

/-- C5, counterexample (the claim is an existential over positions; this
proves its negation): no line, position or classifier ever fires the
secondary-skip guard — the branch is dead code and never skips an
additional word. -/
theorem C5_secondary_skip_counterexample : secondarySkipReachable = False :=
  eq_false (by
    rintro ⟨p, chars, x, h⟩
    rw [secondarySkipFires_eq_false p chars x] at h
    exact Bool.false_ne_true h)

/-- C5, amended: the secondary-skip branch of the word-right navigation is
unreachable; for every classifier, line and starting column the in-line
word-right computation equals the plain two-loop skip (alphanumeric run,
then non-alphanumeric run), with no additional word ever skipped. -/
theorem C5_secondary_skip_amended :
    ∀ (p : Char → Bool) (chars : List Char) (x : Nat),
      moveWordRightLine p chars x =
        skipRun (fun c => !(p c)) chars (skipRun p chars x) := by
  intro p chars x
  have hg : ¬(x = skipRun (fun c => !(p c)) chars (skipRun p chars x) ∧
      skipRun (fun c => !(p c)) chars (skipRun p chars x) < chars.length ∧
      p (chars.getD x 'a') = true) := by
    rintro ⟨h1, h2, h3⟩
    exact secondary_guard_false p chars x ⟨h1, h2⟩
  simp only [moveWordRightLine]
  rw [if_neg hg]

/-! ## Claim C6 -/

/-- C6: word-right navigation.  (1) The in-line computation lands at the
start of the next alphanumeric run: skip the current alphanumeric run,
then the following non-alphanumeric run.  (2) At end of line on the last
buffer row the cursor stays put (the state is unchanged).  (3) At end of
an earlier line it first crosses to column 0 of the next line and runs the
skips there.  (4) Inside a line it runs the skips in place.  (5) On the
buffer `["foo bar"]` with cursor `(0,0)`, word-right lands at `(0,4)`. -/
theorem C6_word_right :
    (∀ (p : Char → Bool) (chars : List Char) (x : Nat),
      moveWordRightLine p chars x = wordRightSpec p chars x) ∧
    (∀ (rect : Rect) (lnE : Bool) (gw : Nat) (shift : Bool) (st : EditorState),
      st.cursor_x = (st.line st.cursor_y).length →
      st.buffer.length - 1 ≤ st.cursor_y →
      move_cursor_word_right rect lnE gw shift st = st) ∧
    (∀ (rect : Rect) (lnE : Bool) (gw : Nat) (shift : Bool) (st : EditorState),
      st.cursor_x = (st.line st.cursor_y).length →
      st.cursor_y < st.buffer.length - 1 →
      (move_cursor_word_right rect lnE gw shift st).cursor_y = st.cursor_y + 1 ∧
      (move_cursor_word_right rect lnE gw shift st).cursor_x =
        wordRightSpec rustIsAlphanumeric (st.line (st.cursor_y + 1)) 0) ∧
    (∀ (rect : Rect) (lnE : Bool) (gw : Nat) (shift : Bool) (st : EditorState),
      st.cursor_x < (st.line st.cursor_y).length →
      (move_cursor_word_right rect lnE gw shift st).cursor_y = st.cursor_y ∧
      (move_cursor_word_right rect lnE gw shift st).cursor_x =
        wordRightSpec rustIsAlphanumeric (st.line st.cursor_y) st.cursor_x) ∧
    ((move_cursor_word_right ⟨80, 24⟩ false 4 false
        (testState [['f', 'o', 'o', ' ', 'b', 'a', 'r']] 0 0)).cursor_y = 0 ∧
      (move_cursor_word_right ⟨80, 24⟩ false 4 false
        (testState [['f', 'o', 'o', ' ', 'b', 'a', 'r']] 0 0)).cursor_x = 4) := by
  refine ⟨moveWordRightLine_eq_spec, ?_, ?_, ?_, by decide⟩
  · intro rect lnE gw shift st h1 h2
    unfold move_cursor_word_right
    rw [if_pos h1, if_neg (by omega)]
  · intro rect lnE gw shift st h1 h2
    unfold move_cursor_word_right
    rw [if_pos h1, if_pos h2]
    have := moveWordRightGo_cursor rect lnE gw shift
      { st with cursor_y := st.cursor_y + 1, cursor_x := 0 } (by simp)
    simpa using this
  · intro rect lnE gw shift st h1
    unfold move_cursor_word_right
    rw [if_neg (by omega)]
    exact moveWordRightGo_cursor rect lnE gw shift st (Nat.le_of_lt h1)

/-- C6, witness: the stay-put case of `C6_word_right` evaluated at a
cursor at the end of the last line. -/
theorem C6_word_right_witness :
    move_cursor_word_right ⟨80, 24⟩ false 4 false (testState [['a', 'b']] 2 0) =
      testState [['a', 'b']] 2 0 :=
  C6_word_right.2.1 ⟨80, 24⟩ false 4 false (testState [['a', 'b']] 2 0)
    (by decide) (by decide)

/-! ## Initial state and the cursor invariant -/

/-- `Editor::new_with_backend` (src/main.rs lines 59-87): the initial
engine state (one empty line, cursor at origin), mode chosen by the
modal-editing flag. -/
def initialState (hashB : List (List Char) → Nat) (vim : Bool) : EditorState :=
  { buffer := [[]], cursor_x := 0, cursor_y := 0, scroll_x := 0, scroll_y := 0,
    original_buffer_hash := hashB [[]], filename := none,
    application_mode := .Editing,
    input_mode := if vim then .Normal else .Insert,
    vim_enabled := vim,
    status_message := if vim then "-- NORMAL --"
      else "Ctrl+X Exit | Ctrl+W Save | Ctrl+H Help",
    prompt_message := "", clipboard := [], selection_start := none,
    selection_end := none }

/-- The cursor-validity invariant stated by the spec (§3):
`0 ≤ row < line_count` and `0 ≤ col ≤ line length`. -/
def CursorValid (st : EditorState) : Prop :=
  st.cursor_y < st.buffer.length ∧ st.cursor_x ≤ (st.line st.cursor_y).length

instance (st : EditorState) : Decidable (CursorValid st) := by
  unfold CursorValid; infer_instance

/-! ## Claim C2 -/

/-- C2: the code violates the cursor invariant the claim states.  From the
initial modal-editing state (buffer `[""]`, cursor `(0,0)`, Normal mode),
the Normal-mode command `a` executes `cursor_x += 1` with no clamp and no
normalization pass, leaving the cursor column at `1` on a line of length
`0` — the row stays valid but `col ≤ line length` fails immediately after
the keystroke handler returns. -/
theorem C2_cursor_invariant_failing_input :
    ((handle_key_input (fun _ => 0) true ⟨80, 24⟩ false 4 (.Char 'a')
        ⟨false, false⟩ (initialState (fun _ => 0) true)).1.cursor_y <
      (handle_key_input (fun _ => 0) true ⟨80, 24⟩ false 4 (.Char 'a')
        ⟨false, false⟩ (initialState (fun _ => 0) true)).1.buffer.length) ∧
    ¬ CursorValid (handle_key_input (fun _ => 0) true ⟨80, 24⟩ false 4 (.Char 'a')
        ⟨false, false⟩ (initialState (fun _ => 0) true)).1 := by
  decide

/-! ## Claim C3 -/

/-- The common tail of every movement primitive: after the cursor has
moved, extending with no prior selection anchors at the already-moved
cursor, and the final viewport clamp leaves that cursor in place. -/
theorem extend_sets_anchor_post (rect : Rect) (lnE : Bool) (gw : Nat)
    (st1 : EditorState) (hsel : st1.selection_start = none)
    (hle : st1.cursor_x ≤ (st1.line st1.cursor_y).length) :
    (ensure_cursor_in_view rect lnE gw (update_selection_on_move true st1)).selection_start =
      some ((ensure_cursor_in_view rect lnE gw (update_selection_on_move true st1)).cursor_y,
            (ensure_cursor_in_view rect lnE gw (update_selection_on_move true st1)).cursor_x) ∧
    (ensure_cursor_in_view rect lnE gw (update_selection_on_move true st1)).selection_end =
      some ((ensure_cursor_in_view rect lnE gw (update_selection_on_move true st1)).cursor_y,
            (ensure_cursor_in_view rect lnE gw (update_selection_on_move true st1)).cursor_x) := by
  obtain ⟨hub, hux, huy, -, -⟩ := update_selection_frame true st1
  obtain ⟨hua, hue⟩ := update_selection_shift_none st1 hsel
  obtain ⟨heb, hey, hex, hes, hee, -⟩ :=
    ensure_frame rect lnE gw (update_selection_on_move true st1)
  have hline : (update_selection_on_move true st1).line
      (update_selection_on_move true st1).cursor_y = st1.line st1.cursor_y := by
    rw [EditorState.line, hub, huy]; rfl
  have hcx : (ensure_cursor_in_view rect lnE gw (update_selection_on_move true st1)).cursor_x
      = st1.cursor_x := by
    rw [hex, hux, hline]
    exact Nat.min_eq_left hle
  have hcy : (ensure_cursor_in_view rect lnE gw (update_selection_on_move true st1)).cursor_y
      = st1.cursor_y := by rw [hey, huy]
  refine ⟨?_, ?_⟩
  · rw [hes, hua, hcx, hcy]
  · rw [hee, hue, hcx, hcy]

/-- C3, counterexample: on buffer `["ab"]` with cursor `(0,1)` and no
active selection, moving left with the extend flag set fixes the anchor at
`(0,0)` — the cursor position after the movement — not at the pre-movement
position `(0,1)` the claim requires (`update_selection_on_move` runs after
the cursor has moved). -/
theorem C3_selection_anchor_counterexample :
    (move_cursor_left ⟨80, 24⟩ false 4 true (testState [['a', 'b']] 1 0)).selection_start ≠
      some (0, 1) ∧
    (move_cursor_left ⟨80, 24⟩ false 4 true (testState [['a', 'b']] 1 0)).selection_start =
      some (0, 0) := by decide

/-- C3, amended: for the basic movement primitives invoked with the extend
flag while no selection is active (from a state satisfying the cursor
invariant), the anchor is fixed at the cursor position after the movement,
and the active endpoint equals the anchor — both are the post-movement
cursor, not the pre-movement one.  (The word motions behave the same,
except that at the buffer boundary they return early without creating any
selection.) -/
theorem C3_selection_anchor_amended (rect : Rect) (lnE : Bool) (gw : Nat)
    (st : EditorState) (hv : CursorValid st) (hsel : st.selection_start = none) :
    ((move_cursor_left rect lnE gw true st).selection_start =
        some ((move_cursor_left rect lnE gw true st).cursor_y,
              (move_cursor_left rect lnE gw true st).cursor_x) ∧
      (move_cursor_left rect lnE gw true st).selection_end =
        (move_cursor_left rect lnE gw true st).selection_start) ∧
    ((move_cursor_right rect lnE gw true st).selection_start =
        some ((move_cursor_right rect lnE gw true st).cursor_y,
              (move_cursor_right rect lnE gw true st).cursor_x) ∧
      (move_cursor_right rect lnE gw true st).selection_end =
        (move_cursor_right rect lnE gw true st).selection_start) ∧
    ((move_cursor_up rect lnE gw true st).selection_start =
        some ((move_cursor_up rect lnE gw true st).cursor_y,
              (move_cursor_up rect lnE gw true st).cursor_x) ∧
      (move_cursor_up rect lnE gw true st).selection_end =
        (move_cursor_up rect lnE gw true st).selection_start) ∧
    ((move_cursor_down rect lnE gw true st).selection_start =
        some ((move_cursor_down rect lnE gw true st).cursor_y,
              (move_cursor_down rect lnE gw true st).cursor_x) ∧
      (move_cursor_down rect lnE gw true st).selection_end =
        (move_cursor_down rect lnE gw true st).selection_start) := by
  obtain ⟨hvy, hvx⟩ := hv
  simp only [EditorState.line, List.getD_eq_getElem?_getD] at hvx
  have post : ∀ st1 : EditorState, st1.selection_start = none →
      st1.cursor_x ≤ (st1.line st1.cursor_y).length →
      (ensure_cursor_in_view rect lnE gw (update_selection_on_move true st1)).selection_start =
        some ((ensure_cursor_in_view rect lnE gw (update_selection_on_move true st1)).cursor_y,
              (ensure_cursor_in_view rect lnE gw (update_selection_on_move true st1)).cursor_x) ∧
      (ensure_cursor_in_view rect lnE gw (update_selection_on_move true st1)).selection_end =
        (ensure_cursor_in_view rect lnE gw (update_selection_on_move true st1)).selection_start := by
    intro st1 h1 h2
    obtain ⟨ha, he⟩ := extend_sets_anchor_post rect lnE gw st1 h1 h2
    exact ⟨ha, he.trans ha.symm⟩
  refine ⟨?_, ?_, ?_, ?_⟩
  · simp only [move_cursor_left]
    split_ifs with h1 h2
    · exact post _ (by simpa using hsel)
        (by simp [EditorState.line]; omega)
    · exact post _ (by simpa using hsel) (by simp [EditorState.line])
    · exact post _ hsel (by simp only [EditorState.line, List.getD_eq_getElem?_getD]; exact hvx)
  · simp only [move_cursor_right]
    split_ifs with h1 h2
    · simp only [EditorState.line, List.getD_eq_getElem?_getD] at h1
      exact post _ (by simpa using hsel)
        (by simp [EditorState.line]; omega)
    · exact post _ (by simpa using hsel) (by simp [EditorState.line])
    · exact post _ hsel (by simp only [EditorState.line, List.getD_eq_getElem?_getD]; exact hvx)
  · simp only [move_cursor_up]
    split_ifs with h1
    · exact post _ (by simpa using hsel) (by simp [EditorState.line])
    · exact post _ hsel (by simp only [EditorState.line, List.getD_eq_getElem?_getD]; exact hvx)
  · simp only [move_cursor_down]
    split_ifs with h1
    · exact post _ (by simpa using hsel) (by simp [EditorState.line])
    · exact post _ hsel (by simp only [EditorState.line, List.getD_eq_getElem?_getD]; exact hvx)

/-- C3, witness: the amended theorem applied at buffer `["ab"]`, cursor
`(0,1)`. -/
theorem C3_selection_anchor_witness :
    CursorValid (testState [['a', 'b']] 1 0) ∧
    (move_cursor_left ⟨80, 24⟩ false 4 true (testState [['a', 'b']] 1 0)).selection_end =
      (move_cursor_left ⟨80, 24⟩ false 4 true (testState [['a', 'b']] 1 0)).selection_start :=
  ⟨by decide, (C3_selection_anchor_amended ⟨80, 24⟩ false 4 (testState [['a', 'b']] 1 0)
    (by decide) (by decide)).1.2⟩

/-! ## Claim C4 -/

/-- C4, counterexample: in Insert mode with modal editing enabled, on
buffer `["ab"]` with cursor column `1` (strictly less than the line length
`2`), Escape changes the column to `0` — the handler always executes
`cursor_x = cursor_x.saturating_sub(1).min(len-1)`, decrementing the
column even when it is not one-past-end. -/
theorem C4_escape_trim_counterexample :
    (handle_key_insert_mode ⟨80, 24⟩ false 4 .Esc ⟨false, false⟩
        { testState [['a', 'b']] 1 0 with input_mode := .Insert }).1.cursor_x = 0 ∧
    (1 : Nat) <
      (({ testState [['a', 'b']] 1 0 with input_mode := InputMode.Insert }).line 0).length := by
  decide

/-- C4, amended: Escape in Insert mode with modal editing enabled
transitions to Normal, clears the selection, and always sets the cursor
column to `min(col - 1, len - 1)` with saturating subtraction — it
decrements the column whenever `col > 0`, not only when the column was
one-past-end. -/
theorem C4_escape_trim_amended (rect : Rect) (lnE : Bool) (gw : Nat)
    (mods : KeyMods) (st : EditorState) (hvim : st.vim_enabled = true) :
    (handle_key_insert_mode rect lnE gw .Esc mods st).1.input_mode = .Normal ∧
    (handle_key_insert_mode rect lnE gw .Esc mods st).1.selection_start = none ∧
    (handle_key_insert_mode rect lnE gw .Esc mods st).1.cursor_x =
      min (st.cursor_x - 1) ((st.line st.cursor_y).length - 1) ∧
    (handle_key_insert_mode rect lnE gw .Esc mods st).2 = false := by
  simp [handle_key_insert_mode, hvim, clear_selection, EditorState.line]

/-- C4, witness: the amended Escape transition applied at buffer `["ab"]`,
cursor column 1. -/
theorem C4_escape_trim_witness :
    ({ testState [['a', 'b']] 1 0 with input_mode := InputMode.Insert }).vim_enabled = true ∧
    (handle_key_insert_mode ⟨80, 24⟩ false 4 .Esc ⟨false, false⟩
        { testState [['a', 'b']] 1 0 with input_mode := .Insert }).1.input_mode = .Normal :=
  ⟨rfl, (C4_escape_trim_amended ⟨80, 24⟩ false 4 ⟨false, false⟩
    { testState [['a', 'b']] 1 0 with input_mode := .Insert } rfl).1⟩

/-! ## Helper lemmas: viewport normalization -/

theorem ensure_scroll_y_eq (rect : Rect) (lnE : Bool) (gw : Nat) (st : EditorState) :
    (ensure_cursor_in_view rect lnE gw st).scroll_y =
      min (adjustScroll (rect.height - 2) st.cursor_y st.scroll_y)
        (st.buffer.length - 1) := rfl

theorem ensure_scroll_x_eq (rect : Rect) (lnE : Bool) (gw : Nat) (st : EditorState)
    (hy : st.cursor_y < st.buffer.length) :
    (ensure_cursor_in_view rect lnE gw st).scroll_x =
      min (adjustScroll (rect.width - 2 - gutterTotal lnE gw) st.cursor_x st.scroll_x)
        ((st.line st.cursor_y).length - (rect.width - 2 - gutterTotal lnE gw)) := by
  simp only [ensure_cursor_in_view]
  rw [if_pos hy]

/-- Vertical idempotence of the window adjustment followed by the
`buffer.len()-1` clamp, for a visible height of at least one row and an
in-range cursor row. -/
theorem adjust_vert_idem (vis y s len : Nat) (hvis : 1 ≤ vis) (_hy : y < len) :
    min (adjustScroll vis y (min (adjustScroll vis y s) (len - 1))) (len - 1) =
      min (adjustScroll vis y s) (len - 1) := by
  unfold adjustScroll
  simp only [Nat.min_def]
  split_ifs <;> omega

/-- Horizontal idempotence of the window adjustment followed by the
line-length clamp, for an effective width of at least one column; the
cursor column entering the second pass is the clamped `min x L`. -/
theorem adjust_horiz_idem (w L x s : Nat) (hw : 1 ≤ w) :
    min (adjustScroll w (min x L) (min (adjustScroll w x s) (L - w))) (L - w) =
      min (adjustScroll w x s) (L - w) := by
  unfold adjustScroll
  simp only [Nat.min_def]
  split_ifs <;> omega

/-! ## Claim C7 -/

/-- C7, counterexample: with an editor area only two rows high the visible
height is zero and the viewport normalization is not idempotent — on a
two-line buffer with cursor and scroll at the origin, the first pass sets
`scroll_row` to 1 (the `cursor >= scroll + 0` branch) and the second pass
sets it back to 0 (the `cursor < scroll` branch). -/
theorem C7_viewport_idem_counterexample :
    (ensure_cursor_in_view ⟨80, 2⟩ false 4
        (ensure_cursor_in_view ⟨80, 2⟩ false 4 (testState [[], []] 0 0))).scroll_y ≠
      (ensure_cursor_in_view ⟨80, 2⟩ false 4 (testState [[], []] 0 0)).scroll_y := by
  decide

/-- C7, amended: the viewport normalization pass is idempotent in both
scroll offsets whenever the visible rectangle is non-degenerate — height
at least 3 (one visible row after the two border rows) and width at least
`3 + gutter` (one visible column) — and the cursor row is in range. -/
theorem C7_viewport_idem_amended (rect : Rect) (lnE : Bool) (gw : Nat)
    (st : EditorState) (hh : 3 ≤ rect.height)
    (hw : 2 + gutterTotal lnE gw < rect.width)
    (hy : st.cursor_y < st.buffer.length) :
    (ensure_cursor_in_view rect lnE gw (ensure_cursor_in_view rect lnE gw st)).scroll_y =
      (ensure_cursor_in_view rect lnE gw st).scroll_y ∧
    (ensure_cursor_in_view rect lnE gw (ensure_cursor_in_view rect lnE gw st)).scroll_x =
      (ensure_cursor_in_view rect lnE gw st).scroll_x := by
  obtain ⟨heb, hey, hex, -⟩ := ensure_frame rect lnE gw st
  have hy1 : (ensure_cursor_in_view rect lnE gw st).cursor_y <
      (ensure_cursor_in_view rect lnE gw st).buffer.length := by
    rw [heb, hey]; exact hy
  have hline1 : (ensure_cursor_in_view rect lnE gw st).line
      (ensure_cursor_in_view rect lnE gw st).cursor_y = st.line st.cursor_y := by
    rw [EditorState.line, heb, hey]; rfl
  constructor
  · rw [ensure_scroll_y_eq rect lnE gw (ensure_cursor_in_view rect lnE gw st),
      hey, heb, ensure_scroll_y_eq rect lnE gw st]
    exact adjust_vert_idem (rect.height - 2) st.cursor_y st.scroll_y
      st.buffer.length (by omega) hy
  · rw [ensure_scroll_x_eq rect lnE gw (ensure_cursor_in_view rect lnE gw st) hy1,
      hex, hline1, ensure_scroll_x_eq rect lnE gw st hy]
    exact adjust_horiz_idem (rect.width - 2 - gutterTotal lnE gw)
      (st.line st.cursor_y).length st.cursor_x st.scroll_x (by omega)

/-- C7, witness: the amended idempotence applied at an 80×24 area. -/
theorem C7_viewport_idem_witness :
    3 ≤ (24 : Nat) ∧
    (ensure_cursor_in_view ⟨80, 24⟩ false 4
        (ensure_cursor_in_view ⟨80, 24⟩ false 4 (testState [[], []] 0 0))).scroll_y =
      (ensure_cursor_in_view ⟨80, 24⟩ false 4 (testState [[], []] 0 0)).scroll_y :=
  ⟨by decide, (C7_viewport_idem_amended ⟨80, 24⟩ false 4 (testState [[], []] 0 0)
    (by decide) (by decide) (by decide)).1⟩

/-! ## Helper lemmas: cut -/

theorem cut_selection_modes (rect : Rect) (lnE : Bool) (gw : Nat) (st : EditorState) :
    (cut_selection rect lnE gw st).application_mode = st.application_mode ∧
    (cut_selection rect lnE gw st).input_mode = st.input_mode := by
  unfold cut_selection delete_selected_text
  cases hg : get_selected_text st with
  | none => simp
  | some t =>
    simp only
    cases hn : get_normalized_selection { st with clipboard := t } with
    | none => simp
    | some se =>
      obtain ⟨⟨sr, sc⟩, er, ec⟩ := se
      simp [clear_selection, ensure_cursor_in_view]

theorem cut_selection_clears (rect : Rect) (lnE : Bool) (gw : Nat) (st : EditorState)
    (hs : st.selection_start.isSome = true) (he : st.selection_end.isSome = true) :
    (cut_selection rect lnE gw st).selection_start = none ∧
    (cut_selection rect lnE gw st).selection_end = none := by
  obtain ⟨s, hs'⟩ := Option.isSome_iff_exists.mp hs
  obtain ⟨e, he'⟩ := Option.isSome_iff_exists.mp he
  unfold cut_selection delete_selected_text
  have hnorm : (get_normalized_selection st).isSome = true := by
    unfold get_normalized_selection
    rw [hs', he']
    split <;> simp_all
    split <;> simp
  cases hg : get_selected_text st with
  | none =>
    unfold get_selected_text at hg
    rw [Option.map_eq_none'] at hg
    rw [hg] at hnorm
    simp at hnorm
  | some t =>
    simp only
    have hn2 : get_normalized_selection { st with clipboard := t } =
        get_normalized_selection st := rfl
    cases hn : get_normalized_selection st with
    | none => rw [hn] at hnorm; simp at hnorm
    | some se =>
      obtain ⟨⟨sr, sc⟩, er, ec⟩ := se
      rw [hn2, hn]
      simp [clear_selection, ensure_cursor_in_view]

/-! ## Claim C8 -/

/-- An editor state with an active one-character selection on buffer
`["abc"]`, used for the C8 counterexample. -/
def selState : EditorState :=
  { testState [['a', 'b', 'c']] 1 0 with
    selection_start := some (0, 0), selection_end := some (0, 1) }

/-- C8, counterexample: in Normal mode with an active selection over `"a"`
in buffer `["abc"]`, the exit request (Ctrl+X) performs the cut and does
not exit, but the state is not the post-cut state: the same key event then
falls through to the Normal-mode handler, whose unguarded `x` arm deletes
the character under the cursor, leaving `["c"]` instead of `["bc"]`. -/
theorem C8_exit_dispatch_counterexample :
    (handle_key_input (fun _ => 0) true ⟨80, 24⟩ false 4 (.Char 'x')
        ⟨true, false⟩ selState).2 = false ∧
    (handle_key_input (fun _ => 0) true ⟨80, 24⟩ false 4 (.Char 'x')
        ⟨true, false⟩ selState).1.buffer = [['c']] ∧
    (cut_selection ⟨80, 24⟩ false 4 selState).buffer = [['b', 'c']] ∧
    (handle_key_input (fun _ => 0) true ⟨80, 24⟩ false 4 (.Char 'x')
        ⟨true, false⟩ selState).1 ≠ cut_selection ⟨80, 24⟩ false 4 selState := by
  decide

/-- C8, amended: for every Editing-mode state receiving the exit request
(Ctrl+X): with an active selection the dispatcher performs cut and does
not exit — exactly the post-cut state in Insert mode, while in Normal mode
the keystroke falls through to the unguarded `x` arm and additionally
deletes the character under the cursor; with no selection and a dirty
buffer it transitions to PromptSave with the save prompt and does not
exit; otherwise it terminates the session. -/
theorem C8_exit_dispatch_amended (hashB : List (List Char) → Nat)
    (writeOk : Bool) (rect : Rect) (lnE : Bool) (gw : Nat) (st : EditorState)
    (hmode : st.application_mode = .Editing) :
    (st.selection_start.isSome = true → st.selection_end.isSome = true →
      handle_key_input hashB writeOk rect lnE gw (.Char 'x') ⟨true, false⟩ st =
        (if st.input_mode = .Insert then cut_selection rect lnE gw st
         else delete_char_forward rect lnE gw (cut_selection rect lnE gw st), false)) ∧
    (st.selection_start = none → is_dirty hashB st →
      handle_key_input hashB writeOk rect lnE gw (.Char 'x') ⟨true, false⟩ st =
        ({ st with application_mode := .PromptSave,
                   prompt_message := "Save modified buffer? (Y/N)" }, false)) ∧
    (st.selection_start = none → ¬ is_dirty hashB st →
      handle_key_input hashB writeOk rect lnE gw (.Char 'x') ⟨true, false⟩ st =
        (st, true)) := by
  refine ⟨?_, ?_, ?_⟩
  · intro hs he
    obtain ⟨happ, hinp⟩ := cut_selection_modes rect lnE gw st
    obtain ⟨hclr, hclr2⟩ := cut_selection_clears rect lnE gw st hs he
    unfold handle_key_input
    rw [if_pos ⟨rfl, rfl⟩, if_pos hmode, if_pos hs]
    simp only [happ, hmode, hinp]
    cases hin : st.input_mode with
    | Insert => simp [handle_key_insert_mode, KeyMods.isEmpty]
    | Normal => simp [handle_key_normal_mode, hclr]
  · intro hs hd
    unfold handle_key_input
    rw [if_pos ⟨rfl, rfl⟩, if_pos hmode]
    rw [if_neg (by rw [hs]; simp)]
    rw [if_pos hd]
    simp [handle_key_prompt_save_mode]
  · intro hs hd
    unfold handle_key_input
    rw [if_pos ⟨rfl, rfl⟩, if_pos hmode]
    rw [if_neg (by rw [hs]; simp)]
    rw [if_neg hd]
    simp

/-- C8, witness: the terminate branch of the amended dispatch applied to a
clean state with no selection. -/
theorem C8_exit_dispatch_witness :
    (testState [['a']] 0 0).application_mode = .Editing ∧
    handle_key_input (fun _ => 0) true ⟨80, 24⟩ false 4 (.Char 'x') ⟨true, false⟩
        (testState [['a']] 0 0) = (testState [['a']] 0 0, true) :=
  ⟨rfl, (C8_exit_dispatch_amended (fun _ => 0) true ⟨80, 24⟩ false 4
    (testState [['a']] 0 0) rfl).2.2 rfl (by decide)⟩

/-! ## Claim C9 -/

/-- C9: save-failure atomicity.  Save never touches the buffer; when it
fails (write error or no filename) the dirty-baseline fingerprint and
hence the dirty state are unchanged; when it succeeds the fingerprint is
re-captured from the (unchanged) buffer, so the state is clean; and a
failed load returns the state entirely unchanged (the buffer is replaced
only after a successful read). -/
theorem C9_save_failure_atomicity (hashB : List (List Char) → Nat)
    (writeOk : Bool) (st : EditorState) :
    (save_file hashB writeOk st).1.buffer = st.buffer ∧
    ((save_file hashB writeOk st).2 = false →
      (save_file hashB writeOk st).1.original_buffer_hash = st.original_buffer_hash ∧
      (is_dirty hashB (save_file hashB writeOk st).1 ↔ is_dirty hashB st)) ∧
    ((save_file hashB writeOk st).2 = true →
      (save_file hashB writeOk st).1.original_buffer_hash = hashB st.buffer ∧
      ¬ is_dirty hashB (save_file hashB writeOk st).1) ∧
    (∀ path : String, open_file hashB path none st = (st, false)) := by
  unfold save_file open_file is_dirty
  cases hf : st.filename with
  | none => simp
  | some f =>
    by_cases hw : writeOk = true
    · subst hw; simp
    · rw [Bool.not_eq_true] at hw
      subst hw; simp

/-- C9, witness: a failing save (no filename) leaves the dirty baseline
unchanged. -/
theorem C9_save_failure_atomicity_witness :
    (save_file (fun _ => 0) false (testState [['a']] 0 0)).2 = false ∧
    (save_file (fun _ => 0) false (testState [['a']] 0 0)).1.original_buffer_hash =
      (testState [['a']] 0 0).original_buffer_hash :=
  ⟨by decide, ((C9_save_failure_atomicity (fun _ => 0) false
    (testState [['a']] 0 0)).2.1 (by decide)).1⟩

/-! ## Claim C10 -/

/-- C10: the viewport normalization pass leaves every field except the two
scroll offsets and the cursor column unchanged; its final step clamps the
cursor column to the current line's length, so whenever the column exceeds
the line length on entry the pass moves the cursor.  (The row hypothesis
matches the source, which indexes `buffer[cursor_y]` and panics on an
out-of-range row.) -/
theorem C10_ensure_frame_and_clamp (rect : Rect) (lnE : Bool) (gw : Nat)
    (st : EditorState) (_hy : st.cursor_y < st.buffer.length) :
    ((ensure_cursor_in_view rect lnE gw st).buffer = st.buffer ∧
      (ensure_cursor_in_view rect lnE gw st).cursor_y = st.cursor_y ∧
      (ensure_cursor_in_view rect lnE gw st).selection_start = st.selection_start ∧
      (ensure_cursor_in_view rect lnE gw st).selection_end = st.selection_end ∧
      (ensure_cursor_in_view rect lnE gw st).input_mode = st.input_mode ∧
      (ensure_cursor_in_view rect lnE gw st).application_mode = st.application_mode ∧
      (ensure_cursor_in_view rect lnE gw st).status_message = st.status_message ∧
      (ensure_cursor_in_view rect lnE gw st).prompt_message = st.prompt_message ∧
      (ensure_cursor_in_view rect lnE gw st).clipboard = st.clipboard ∧
      (ensure_cursor_in_view rect lnE gw st).filename = st.filename ∧
      (ensure_cursor_in_view rect lnE gw st).original_buffer_hash = st.original_buffer_hash ∧
      (ensure_cursor_in_view rect lnE gw st).vim_enabled = st.vim_enabled) ∧
    (ensure_cursor_in_view rect lnE gw st).cursor_x =
      min st.cursor_x (st.line st.cursor_y).length ∧
    ((st.line st.cursor_y).length < st.cursor_x →
      (ensure_cursor_in_view rect lnE gw st).cursor_x < st.cursor_x) := by
  obtain ⟨h1, h2, h3, h4, h5, h6, h7, h8, h9, h10, h11, h12, h13⟩ :=
    ensure_frame rect lnE gw st
  refine ⟨⟨h1, h2, h4, h5, h6, h7, h8, h9, h10, h11, h12, h13⟩, h3, ?_⟩
  intro hlt
  rw [h3, Nat.min_def]
  split_ifs <;> omega

/-- C10, witness: the clamp moves a cursor column that exceeds the line
length. -/
theorem C10_ensure_frame_and_clamp_witness :
    (testState [['a']] 5 0).cursor_y < (testState [['a']] 5 0).buffer.length ∧
    (ensure_cursor_in_view ⟨80, 24⟩ false 4 (testState [['a']] 5 0)).cursor_x < 5 :=
  ⟨by decide, (C10_ensure_frame_and_clamp ⟨80, 24⟩ false 4 (testState [['a']] 5 0)
    (by decide)).2.2 (by decide)⟩

end Zepto
